import Mathlib

/-!
Shallow embedding of the barcode inventory web application (`src/main_app.py`).

Python strings are modelled as Lean `String`, with the string primitives the
handlers use (`str.strip`, `str.lower`, `str.split(',')`, `str.replace(".","")`,
`str.isdigit`, `int(str)`) re-implemented as structurally recursive functions
over `String.data`, so that every definition evaluates inside the kernel.
Case folding and digit tests are ASCII, which covers every input the
application's EAN/tag domain uses.

The `produkter` table is modelled as a `List Row`; each SQL statement issued by
a handler becomes a pure transformation of that list.  The filesystem holding
rendered barcode images is modelled as the list of file names present in the
`static/barcodes` directory.
-/

set_option linter.unusedVariables false

/-- Python `str.strip()` on the character list: drop leading and trailing
whitespace. -/
def pyStrip (cs : List Char) : List Char :=
  ((cs.dropWhile Char.isWhitespace).reverse.dropWhile Char.isWhitespace).reverse

/-- Python `str.strip()` lifted to `String`. -/
def strip (s : String) : String := String.mk (pyStrip s.data)

/-- Python `str.lower()` (ASCII case folding) lifted to `String`. -/
def lower (s : String) : String := String.mk (s.data.map Char.toLower)

/-- Python `str.split(',')` on the character list: split at every comma,
keeping empty pieces, so `[] ↦ [[]]` just as `"".split(',') == [""]`. -/
def splitOnComma : List Char → List (List Char)
  | [] => [[]]
  | c :: cs =>
      if c = ',' then [] :: splitOnComma cs
      else
        match splitOnComma cs with
        | [] => [[c]]
        | t :: ts => (c :: t) :: ts

/-- Python `str.split(',')` lifted to `String`. -/
def splitComma (s : String) : List String := (splitOnComma s.data).map String.mk

/-- First-occurrence deduplication with an accumulator of already-seen
elements; models Python `dict.fromkeys` as used in `parse_tags`. -/
def pyDedupAux (seen : List String) : List String → List String
  | [] => []
  | x :: xs =>
      if x ∈ seen then pyDedupAux seen xs else x :: pyDedupAux (x :: seen) xs

/-- Python `list(dict.fromkeys(l))`: remove duplicates, first occurrence wins,
order preserved. -/
def pyDedup (l : List String) : List String := pyDedupAux [] l

/-- The token list built by the comprehension in `parse_tags` before
deduplication: `[t.strip().lower() for t in raw.split(',') if t.strip()]`. -/
def rawTokens (raw : String) : List String :=
  ((splitComma raw).filter (fun t => strip t ≠ "")).map (fun t => lower (strip t))

/-- The tag normalizer `parse_tags` of main_app.py: `None ↦ None`, otherwise
split on commas, strip and lower-case each token, drop blank tokens, and
deduplicate keeping the first occurrence. -/
def parse_tags : Option String → Option (List String)
  | none => none
  | some raw => some (pyDedup (rawTokens raw))

/-- The digit cleaning at the top of `save_barcode_simple`:
`str(ean).strip().replace(".", "")` followed by keeping only digit
characters (the dot removal is subsumed by the digit filter but is kept to
mirror the source). -/
def cleanDigits (s : String) : String :=
  String.mk (((pyStrip s.data).filter (fun c => c ≠ '.')).filter Char.isDigit)

/-- Base file name `barcode {clean}` chosen by `save_barcode_simple`; note it
uses the whole cleaned digit string. -/
def barcodeBase (clean : String) : String := "barcode " ++ clean

/-- The png file name `barcode {clean}.png` written into `static/barcodes`. -/
def barcodePng (clean : String) : String := barcodeBase clean ++ ".png"

/-- The relative path `barcodes/barcode {clean}.png` that
`save_barcode_simple` returns. -/
def barcodeRelPath (clean : String) : String := "barcodes/" ++ barcodePng clean

/-- The barcode artifact resolver `save_barcode_simple`.  The filesystem of the
`static/barcodes` directory is the list `fs` of file names present; rendering
`EAN13(clean[:12])` via the image writer creates the file `barcode {clean}.png`.
Returns the relative path (or `none` when fewer than 12 digits remain) together
with the filesystem afterwards. -/
def save_barcode_simple (ean_number : String) (fs : List String) :
    Option String × List String :=
  if (cleanDigits ean_number).length < 12 then (none, fs)
  else if barcodePng (cleanDigits ean_number) ∈ fs then
    (some (barcodeRelPath (cleanDigits ean_number)), fs)
  else
    (some (barcodeRelPath (cleanDigits ean_number)),
      barcodePng (cleanDigits ean_number) :: fs)

/-- Value of an all-digit character list read as a decimal numeral. -/
def digitsVal (cs : List Char) : Nat :=
  cs.foldl (fun n c => 10 * n + (c.toNat - 48)) 0

/-- Decimal digit run: `none` when empty or containing a non-digit. -/
def digitsToNat (cs : List Char) : Option Nat :=
  if cs ≠ [] ∧ cs.all Char.isDigit then some (digitsVal cs) else none

/-- Python `int(str)`: optional surrounding whitespace, an optional sign, then
decimal digits; `none` models the `ValueError` raised otherwise. -/
def pyInt (s : String) : Option Int :=
  match pyStrip s.data with
  | '-' :: rest => (digitsToNat rest).map (fun n => -(n : Int))
  | '+' :: rest => (digitsToNat rest).map (fun n => (n : Int))
  | cs => (digitsToNat cs).map (fun n => (n : Int))

/-- A row of the `produkter` table. -/
structure Row where
  id : Nat
  ean : String
  name : String
  desc : String
  image : Option String
  qty : Int
  tags : List String
deriving DecidableEq, Repr

/-- Reading an optional form field the way every handler does:
`(request.form.get(k) or '').strip()`. -/
def strField (f : Option String) : String := strip (f.getD "")

/-- The body of `products_qty_add` after route matching: parse the `delta`
field (`int(request.form.get('delta', 1))`, so an absent field gives 1 and an
unparseable field gives 0 via the `except ValueError` branch), then run
`UPDATE produkter SET stock_qty = stock_qty + delta WHERE product_id = pid`. -/
def products_qty_add (db : List Row) (pid : Nat) (delta_f : Option String) :
    List Row :=
  let delta : Int :=
    match delta_f with
    | none => 1
    | some s => (pyInt s).getD 0
  db.map (fun r => if r.id == pid then { r with qty := r.qty + delta } else r)

/-- The body of `products_qty_set`: parse the `qty` field
(`int(request.form.get('qty', 0))`, absent gives 0, unparseable gives 0),
clamp negatives to 0, then run
`UPDATE produkter SET stock_qty = qty WHERE product_id = pid`. -/
def products_qty_set (db : List Row) (pid : Nat) (qty_f : Option String) :
    List Row :=
  let q0 : Int :=
    match qty_f with
    | none => 0
    | some s => (pyInt s).getD 0
  let q : Int := if q0 < 0 then 0 else q0
  db.map (fun r => if r.id == pid then { r with qty := q } else r)

/-- The statement issued by `products_create`:
`INSERT INTO produkter (...) VALUES (...) ON CONFLICT (product_ean) DO UPDATE
SET product_name = EXCLUDED.product_name, product_desc = EXCLUDED.product_desc,
product_image = COALESCE(EXCLUDED.product_image, produkter.product_image),
tags = COALESCE(NULLIF(EXCLUDED.tags, '\x7b\x7d'::text[]), produkter.tags)
RETURNING product_id`.
`freshId` is the id the sequence would assign to a fresh row; a fresh row gets
the table default `stock_qty = 0` since the INSERT names no quantity column.
The conflict test is against the unique `product_ean` constraint, so at most
one stored row carries the incoming EAN. -/
def upsert_by_ean (db : List Row) (freshId : Nat) (ean name desc : String)
    (image : Option String) (tags : List String) : Nat × List Row :=
  match db.find? (fun r0 => r0.ean == ean) with
  | some r =>
      (r.id,
        db.map (fun r0 =>
          if r0.ean == ean then
            { r0 with
              name := name
              desc := desc
              image := (match image with | none => r0.image | some v => some v)
              tags := (if tags = [] then r0.tags else tags) }
          else r0))
  | none =>
      (freshId,
        db ++ [{ id := freshId, ean := ean, name := name, desc := desc,
                 image := image, qty := 0, tags := tags }])

/-- The POST branch of `products_create`: clean the form fields (the EAN keeps
only digits, a blank image becomes NULL, `parse_tags(tags_raw) or []` turns an
absent tag field into the empty list), validate that EAN and name are
non-empty, then upsert. -/
def products_create_post (db : List Row) (freshId : Nat)
    (ean_f name_f desc_f image_f tags_f : Option String) :
    Except String (Nat × List Row) :=
  let product_ean := String.mk ((strField ean_f).data.filter Char.isDigit)
  let product_name := strField name_f
  let product_desc := strField desc_f
  let product_image : Option String :=
    if strField image_f = "" then none else some (strField image_f)
  let tags_list := (parse_tags tags_f).getD []
  if product_ean = "" ∨ product_name = "" then
    Except.error "EAN og navn skal udfyldes."
  else
    Except.ok (upsert_by_ean db freshId product_ean product_name product_desc
      product_image tags_list)

/-- The POST branch of `products_edit`: the handler first fetches the row (and
renders an error page, changing nothing, when it is absent); `tags_raw =
request.form.get('tags')` is `None` exactly when the field is absent, and
`parse_tags` maps that to `None`, in which case the stored tags are passed back
unchanged; otherwise the parsed list (possibly empty) is written.  The UPDATE
sets `product_ean`, `product_name`, `product_desc` and `tags` of that row. -/
def products_edit_post (db : List Row) (pid : Nat)
    (ean_f name_f desc_f tags_f : Option String) : List Row :=
  match db.find? (fun r0 => r0.id == pid) with
  | none => db
  | some product =>
      let tags_param :=
        match parse_tags tags_f with
        | none => product.tags
        | some l => l
      db.map (fun r =>
        if r.id == pid then
          { r with ean := strField ean_f, name := strField name_f,
                   desc := strField desc_f, tags := tags_param }
        else r)

/-- What a camera-using route does at its camera decision point. -/
inductive CamOutcome where
  | redirectList
  | attemptScan
  | attemptCapture (basename : String)
  | renderForm (err : String)
deriving DecidableEq, Repr

/-- Entry of `products_scan_increment`: `ENABLE_CAMERA` is tested before
anything else; when the flag is off the handler returns a redirect to
`products_list`, otherwise it proceeds to `read_barcode_from_camera`. -/
def products_scan_increment_entry (enableCamera : Bool) : CamOutcome :=
  if !enableCamera then CamOutcome.redirectList else CamOutcome.attemptScan

/-- Entry of `products_scan` (barcode scan for create): same guard as
`products_scan_increment`. -/
def products_scan_entry (enableCamera : Bool) : CamOutcome :=
  if !enableCamera then CamOutcome.redirectList else CamOutcome.attemptScan

/-- The basename `products_photo_edit` chooses before calling
`capture_photo_interactive_to_static`: `product_{ean}` when the row exists and
has a non-blank EAN, else `product_id_{pid}` (also when the row is absent). -/
def photoEditBase (db : List Row) (pid : Nat) : String :=
  let ean :=
    match db.find? (fun r0 => r0.id == pid) with
    | some r => strip r.ean
    | none => ""
  if ean ≠ "" then "product_" ++ ean else "product_id_" ++ toString pid

/-- Entry of `products_photo_edit`: the source of this handler never consults
`ENABLE_CAMERA`; after the EAN lookup it always calls
`capture_photo_interactive_to_static`, i.e. attempts an interactive camera
capture. -/
def products_photo_edit_entry (enableCamera : Bool) (db : List Row)
    (pid : Nat) : CamOutcome :=
  CamOutcome.attemptCapture (photoEditBase db pid)

/-- Entry of `products_photo_new`: no `ENABLE_CAMERA` test either; with a
blank `ean` query argument it re-renders the create form with an error, and
with a non-blank one it calls the interactive camera capture. -/
def products_photo_new_entry (enableCamera : Bool) (eanArg : Option String) :
    CamOutcome :=
  let ean := strField eanArg
  if ean = "" then
    CamOutcome.renderForm "Mangler EAN til foto. Scan eller indtast EAN foerst."
  else CamOutcome.attemptCapture ("product_" ++ ean)

/-- Concrete stored row used by the witnesses: a product with an image, a
non-zero stock and a non-empty tag list. -/
def row0 : Row :=
  { id := 1, ean := "5701234567890", name := "Cola", desc := "old",
    image := some "product_img/old.jpg", qty := 4, tags := ["cola"] }

/-- Concrete stored row with stock 0 used by the quantity witnesses. -/
def rowZ : Row :=
  { id := 1, ean := "5701234567890", name := "Cola", desc := "d",
    image := none, qty := 0, tags := [] }

/-! Helper lemmas about the embedded operations. -/

theorem pyDedupAux_congr {s1 s2 : List String} (l : List String)
    (h : ∀ a, a ∈ s1 ↔ a ∈ s2) : pyDedupAux s1 l = pyDedupAux s2 l := by
  induction l generalizing s1 s2 with
  | nil => rfl
  | cons x xs ih =>
      simp only [pyDedupAux]
      by_cases hx : x ∈ s1
      · rw [if_pos hx, if_pos ((h x).1 hx)]
        exact ih h
      · rw [if_neg hx, if_neg (fun hc => hx ((h x).2 hc))]
        refine congrArg (List.cons x) (ih ?_)
        intro a
        simp only [List.mem_cons, h a]

theorem mem_pyDedupAux {a : String} (seen l : List String) :
    a ∈ pyDedupAux seen l ↔ a ∈ l ∧ a ∉ seen := by
  induction l generalizing seen with
  | nil => simp [pyDedupAux]
  | cons x xs ih =>
      simp only [pyDedupAux]
      by_cases hx : x ∈ seen
      · rw [if_pos hx, ih]
        constructor
        · rintro ⟨h1, h2⟩
          exact ⟨List.mem_cons_of_mem _ h1, h2⟩
        · rintro ⟨h1, h2⟩
          rcases List.mem_cons.mp h1 with rfl | h1
          · exact absurd hx h2
          · exact ⟨h1, h2⟩
      · rw [if_neg hx]
        simp only [List.mem_cons, ih, List.mem_cons]
        by_cases hax : a = x
        · subst hax
          simp [hx]
        · simp only [hax, List.mem_cons, false_or]

theorem nodup_pyDedupAux (seen l : List String) : (pyDedupAux seen l).Nodup := by
  induction l generalizing seen with
  | nil => simp [pyDedupAux]
  | cons x xs ih =>
      simp only [pyDedupAux]
      by_cases hx : x ∈ seen
      · rw [if_pos hx]
        exact ih seen
      · rw [if_neg hx]
        refine List.nodup_cons.mpr ⟨?_, ih (x :: seen)⟩
        intro hmem
        exact ((mem_pyDedupAux _ _).1 hmem).2 (List.mem_cons_self x seen)

theorem sublist_pyDedupAux (seen l : List String) :
    (pyDedupAux seen l).Sublist l := by
  induction l generalizing seen with
  | nil => simp [pyDedupAux]
  | cons x xs ih =>
      simp only [pyDedupAux]
      by_cases hx : x ∈ seen
      · rw [if_pos hx]
        exact (ih seen).cons x
      · rw [if_neg hx]
        exact (ih (x :: seen)).cons₂ x

theorem pyDedupAux_cons_filter (x : String) (seen l : List String) :
    pyDedupAux (x :: seen) l = pyDedupAux seen (l.filter (fun y => y ≠ x)) := by
  induction l generalizing seen with
  | nil => rfl
  | cons y ys ih =>
      by_cases hyx : y = x
      · subst hyx
        rw [List.filter_cons_of_neg (by simp)]
        simp only [pyDedupAux]
        rw [if_pos (List.mem_cons_self y seen)]
        exact ih seen
      · rw [List.filter_cons_of_pos (by simp [hyx])]
        by_cases hys : y ∈ seen
        · simp only [pyDedupAux]
          rw [if_pos (List.mem_cons_of_mem x hys), if_pos hys]
          exact ih seen
        · have hy1 : y ∉ x :: seen := by
            simp [List.mem_cons, hyx, hys]
          simp only [pyDedupAux]
          rw [if_neg hy1, if_neg hys]
          refine congrArg (List.cons y) ?_
          rw [@pyDedupAux_congr (y :: x :: seen) (x :: y :: seen) ys
            (by intro a; simp only [List.mem_cons]; tauto)]
          exact ih (y :: seen)

theorem pyDedup_cons (x : String) (xs : List String) :
    pyDedup (x :: xs) = x :: pyDedup (xs.filter (fun y => y ≠ x)) := by
  simp only [pyDedup, pyDedupAux]
  rw [if_neg (List.not_mem_nil x)]
  exact congrArg (List.cons x) (pyDedupAux_cons_filter x [] xs)

theorem nodup_pyDedup (l : List String) : (pyDedup l).Nodup :=
  nodup_pyDedupAux [] l

theorem sublist_pyDedup (l : List String) : (pyDedup l).Sublist l :=
  sublist_pyDedupAux [] l

theorem mem_pyDedup {a : String} (l : List String) : a ∈ pyDedup l ↔ a ∈ l := by
  rw [pyDedup, mem_pyDedupAux]
  simp

theorem find?_map_comm {α : Type} (f : α → α) (p : α → Bool) (l : List α)
    (hp : ∀ a, p (f a) = p a) :
    (l.map f).find? p = (l.find? p).map f := by
  rw [List.find?_map f l]
  have : (p ∘ f) = p := funext hp
  rw [this]

theorem find?_map_update {p : Row → Bool} (db : List Row) (g : Row → Row)
    (hg : ∀ a, p (g a) = p a) (r : Row) (hr : db.find? p = some r) :
    (db.map (fun r0 => if p r0 then g r0 else r0)).find? p = some (g r) := by
  have hp : ∀ a : Row, p (if p a then g a else a) = p a := by
    intro a
    by_cases h : p a = true
    · rw [if_pos h, hg]
    · rw [if_neg h]
  rw [find?_map_comm _ _ _ hp, hr, Option.map_some']
  rw [if_pos (List.find?_some hr)]

/-! The claims. -/

/-- C4: the tag normalizer `parse_tags` maps `None` to `None`, and maps every
string to the ordered sequence of stripped, lower-cased, non-empty
comma-separated tokens with duplicates removed — the result has no duplicates,
is a sublist of the token sequence (so input order is preserved), keeps exactly
the set of tokens, and deduplication keeps the first occurrence of each token;
in particular the empty string gives the empty list and
"Cola, cola, 1.5L" gives ["cola", "1.5l"]. -/
theorem C4_tag_normalizer :
    parse_tags none = none ∧
    parse_tags (some "") = some [] ∧
    parse_tags (some "Cola, cola, 1.5L") = some ["cola", "1.5l"] ∧
    (∀ s : String, parse_tags (some s) = some (pyDedup (rawTokens s))) ∧
    (∀ s : String, (pyDedup (rawTokens s)).Nodup) ∧
    (∀ s : String, (pyDedup (rawTokens s)).Sublist (rawTokens s)) ∧
    (∀ s t : String, t ∈ pyDedup (rawTokens s) ↔ t ∈ rawTokens s) ∧
    (∀ (x : String) (xs : List String),
        pyDedup (x :: xs) = x :: pyDedup (xs.filter (fun y => y ≠ x))) := by
  refine ⟨rfl, by decide, by decide, fun s => rfl, fun s => nodup_pyDedup _,
    fun s => sublist_pyDedup _, fun s t => mem_pyDedup _, pyDedup_cons⟩

/-- C5: on any input whose cleaned digit string is shorter than 12 the barcode
resolver returns no path and leaves the filesystem unchanged (no image file is
created), without raising an error. -/
theorem C5_short_codes_not_renderable (s : String) (fs : List String)
    (h : (cleanDigits s).length < 12) :
    save_barcode_simple s fs = (none, fs) := by
  simp only [save_barcode_simple, if_pos h]

/-- C5 witness at the spec's concrete five-digit input. -/
theorem C5_short_codes_not_renderable_witness :
    (cleanDigits "12345").length < 12 ∧
    save_barcode_simple "12345" [] = (none, []) :=
  ⟨by decide, C5_short_codes_not_renderable "12345" [] (by decide)⟩

/-- C6 counterexample: the artifact filename is not a function of the first
12 digits of the cleaned input — two inputs agreeing on their first 12 digits
produce different paths, because the source builds the name from the whole
cleaned string. -/
theorem C6_filename_not_first12 :
    (cleanDigits "570123456789").data.take 12
      = (cleanDigits "5701234567890").data.take 12 ∧
    (save_barcode_simple "570123456789" []).1
      ≠ (save_barcode_simple "5701234567890" []).1 := by
  decide

/-- C6 (amended): for inputs whose cleaned form has at least 12 digits the
resolver computes the filename deterministically from the entire cleaned digit
string (the rendered payload is its first 12 digits), returns the existing
path without re-rendering when the file already exists, and a second call with
the same input is an idempotent no-op returning the path of the first call. -/
theorem C6_resolver_idempotent (s : String) (fs : List String)
    (h : 12 ≤ (cleanDigits s).length) :
    (save_barcode_simple s fs).1 = some (barcodeRelPath (cleanDigits s)) ∧
    (∀ s' : String, cleanDigits s' = cleanDigits s →
        save_barcode_simple s' fs = save_barcode_simple s fs) ∧
    (barcodePng (cleanDigits s) ∈ fs → (save_barcode_simple s fs).2 = fs) ∧
    save_barcode_simple s (save_barcode_simple s fs).2
      = save_barcode_simple s fs := by
  have hnl : ¬(cleanDigits s).length < 12 := Nat.not_lt.mpr h
  refine ⟨?_, ?_, ?_, ?_⟩
  · simp only [save_barcode_simple, if_neg hnl]
    by_cases hm : barcodePng (cleanDigits s) ∈ fs
    · rw [if_pos hm]
    · rw [if_neg hm]
  · intro s' hs'
    simp only [save_barcode_simple, hs']
  · intro hm
    simp only [save_barcode_simple, if_neg hnl, if_pos hm]
  · by_cases hm : barcodePng (cleanDigits s) ∈ fs
    · simp only [save_barcode_simple, if_neg hnl, if_pos hm]
    · simp only [save_barcode_simple, if_neg hnl, if_neg hm]
      rw [if_pos (List.mem_cons_self _ _)]

/-- C6 witness at the spec's concrete 13-digit EAN. -/
theorem C6_resolver_idempotent_witness :
    12 ≤ (cleanDigits "5701234567890").length ∧
    (save_barcode_simple "5701234567890" []).1
      = some "barcodes/barcode 5701234567890.png" ∧
    save_barcode_simple "5701234567890"
        (save_barcode_simple "5701234567890" []).2
      = save_barcode_simple "5701234567890" [] := by
  have h := C6_resolver_idempotent "5701234567890" [] (by decide)
  exact ⟨by decide, h.1.trans (by decide), h.2.2.2⟩

/-- C7: a quantity-set request with an integer `qty` field stores
`max(qty, 0)` on the addressed row: negative values are clamped to 0,
non-negative values are stored exactly. -/
theorem C7_qty_set_clamps (db : List Row) (pid : Nat) (s : String) (q : Int)
    (r : Row) (hq : pyInt s = some q)
    (hr : db.find? (fun r0 => r0.id == pid) = some r) :
    (products_qty_set db pid (some s)).find? (fun r0 => r0.id == pid)
      = some { r with qty := max q 0 } := by
  have hmax : (if q < 0 then (0 : Int) else q) = max q 0 := by
    rcases lt_or_le q 0 with hql | hql
    · rw [if_pos hql, max_eq_right hql.le]
    · rw [if_neg (not_lt.mpr hql), max_eq_left hql]
  simp only [products_qty_set, hq, Option.getD_some, hmax]
  refine find?_map_update db _ (fun a => ?_) r hr
  rfl

/-- C7 witness at the spec's concrete quantities -5 (clamped to 0) and 7. -/
theorem C7_qty_set_clamps_witness :
    (products_qty_set [row0] 1 (some "-5")).find? (fun r0 => r0.id == 1)
      = some { row0 with qty := 0 } ∧
    (products_qty_set [row0] 1 (some "7")).find? (fun r0 => r0.id == 1)
      = some { row0 with qty := 7 } := by
  constructor
  · exact (C7_qty_set_clamps [row0] 1 "-5" (-5) row0 (by decide)
      (by decide)).trans (by decide)
  · exact (C7_qty_set_clamps [row0] 1 "7" 7 row0 (by decide)
      (by decide)).trans (by decide)

/-- C8: a quantity-add request with an integer `delta` field (possibly
negative) stores the previous quantity plus the delta on the addressed row,
with no floor applied. -/
theorem C8_qty_add_no_floor (db : List Row) (pid : Nat) (s : String) (dq : Int)
    (r : Row) (hq : pyInt s = some dq)
    (hr : db.find? (fun r0 => r0.id == pid) = some r) :
    (products_qty_add db pid (some s)).find? (fun r0 => r0.id == pid)
      = some { r with qty := r.qty + dq } := by
  simp only [products_qty_add, hq, Option.getD_some]
  refine find?_map_update db _ (fun a => ?_) r hr
  rfl

/-- C8 witness: starting from stock 0, adding -3 stores -3. -/
theorem C8_qty_add_no_floor_witness :
    (products_qty_add [rowZ] 1 (some "-3")).find? (fun r0 => r0.id == 1)
      = some { rowZ with qty := -3 } :=
  (C8_qty_add_no_floor [rowZ] 1 "-3" (-3) rowZ (by decide)
    (by decide)).trans (by decide)

/-- C10: a quantity-add request whose `delta` field is present but not
parseable as an integer leaves the database unchanged (the delta is treated as
0), whereas an absent `delta` field applies the default delta 1. -/
theorem C10_qty_add_bad_delta (db : List Row) (pid : Nat) (s : String)
    (r : Row) (hs : pyInt s = none)
    (hr : db.find? (fun r0 => r0.id == pid) = some r) :
    products_qty_add db pid (some s) = db ∧
    (products_qty_add db pid none).find? (fun r0 => r0.id == pid)
      = some { r with qty := r.qty + 1 } := by
  constructor
  · simp only [products_qty_add, hs, Option.getD_none]
    have hid : ∀ r0 : Row,
        (if r0.id == pid then { r0 with qty := r0.qty + 0 } else r0) = r0 := by
      intro r0
      by_cases h : (r0.id == pid) = true
      · rw [if_pos h]
        simp
      · rw [if_neg h]
    simp only [hid, List.map_id']
  · simp only [products_qty_add]
    refine find?_map_update db _ (fun a => ?_) r hr
    rfl

/-- C10 witness: the unparseable delta "abc" changes nothing, an absent delta
adds 1. -/
theorem C10_qty_add_bad_delta_witness :
    products_qty_add [rowZ] 1 (some "abc") = [rowZ] ∧
    (products_qty_add [rowZ] 1 none).find? (fun r0 => r0.id == 1)
      = some { rowZ with qty := rowZ.qty + 1 } :=
  C10_qty_add_bad_delta [rowZ] 1 "abc" rowZ (by decide) (by decide)

/-- C1: on an EAN conflict the upsert returns the id of the existing row and
updates its name and description unconditionally, keeps the stored image when
no new non-absent image was supplied, and keeps the stored tags when the
incoming normalized tag list is empty (an explicitly-empty incoming list does
not clear them); on a fresh EAN it appends a new row and returns its id. -/
theorem C1_upsert_by_ean_semantics (db : List Row) (fid : Nat)
    (ean name desc : String) (image : Option String) (tags : List String) :
    (∀ r : Row, db.find? (fun r0 => r0.ean == ean) = some r →
        (upsert_by_ean db fid ean name desc image tags).1 = r.id ∧
        (upsert_by_ean db fid ean name desc image tags).2.find?
            (fun r0 => r0.ean == ean)
          = some { r with name := name, desc := desc, image := (match image with | none => r.image | some v => some v), tags := (if tags = [] then r.tags else tags) }) ∧
    (db.find? (fun r0 => r0.ean == ean) = none →
        (upsert_by_ean db fid ean name desc image tags).1 = fid ∧
        (upsert_by_ean db fid ean name desc image tags).2
          = db ++ [{ id := fid, ean := ean, name := name, desc := desc,
                     image := image, qty := 0, tags := tags }]) := by
  constructor
  · intro r hr
    constructor
    · simp only [upsert_by_ean, hr]
    · simp only [upsert_by_ean, hr]
      refine find?_map_update db _ (fun a => ?_) r hr
      rfl
  · intro hn
    constructor
    · simp only [upsert_by_ean, hn]
    · simp only [upsert_by_ean, hn]

/-- C1 witness: upserting onto the stored EAN with no image and an empty tag
list keeps the stored image and tags while renaming, and an unseen EAN gets
the fresh id. -/
theorem C1_upsert_by_ean_semantics_witness :
    (upsert_by_ean [row0] 2 "5701234567890" "Cola Zero" "new" none []).1 = 1 ∧
    (upsert_by_ean [row0] 2 "5701234567890" "Cola Zero" "new" none []).2.find?
        (fun r0 => r0.ean == "5701234567890")
      = some { row0 with name := "Cola Zero", desc := "new" } ∧
    (upsert_by_ean [row0] 2 "9999999999999" "New" "nd" none ["x"]).1 = 2 := by
  have h1 := (C1_upsert_by_ean_semantics [row0] 2 "5701234567890" "Cola Zero"
    "new" none []).1 row0 (by decide)
  have h2 := (C1_upsert_by_ean_semantics [row0] 2 "9999999999999" "New" "nd"
    none ["x"]).2 (by decide)
  exact ⟨h1.1, h1.2.trans (by decide), h2.1⟩

/-- C2 counterexample: with the camera flag disabled, the photo-capture route
for an existing product still proceeds to an interactive camera capture rather
than redirecting to the product list, and so does the photo-capture route for
create when an EAN is supplied. -/
theorem C2_photo_routes_ignore_flag :
    products_photo_edit_entry false [] 1
      = CamOutcome.attemptCapture "product_id_1" ∧
    products_photo_edit_entry false [] 1 ≠ CamOutcome.redirectList ∧
    products_photo_new_entry false (some "5701234567890")
      = CamOutcome.attemptCapture "product_5701234567890" ∧
    products_photo_new_entry false (some "5701234567890")
      ≠ CamOutcome.redirectList := by
  decide

/-- C2 (amended): with the camera flag disabled, the two barcode-scan entry
points (scan-and-increment and scan-for-create) short-circuit to a redirect to
the product list without any camera access; the two photo-capture entry points
never consult the flag — photo-edit always proceeds to an interactive capture,
and photo-new proceeds to an interactive capture whenever a non-blank EAN is
supplied. -/
theorem C2_camera_flag_guard (db : List Row) (pid : Nat) (e : String)
    (he : strip e ≠ "") :
    products_scan_increment_entry false = CamOutcome.redirectList ∧
    products_scan_entry false = CamOutcome.redirectList ∧
    (∀ cam : Bool,
        products_photo_edit_entry cam db pid
          = CamOutcome.attemptCapture (photoEditBase db pid)) ∧
    (∀ cam : Bool,
        products_photo_new_entry cam (some e)
          = CamOutcome.attemptCapture ("product_" ++ strip e)) := by
  refine ⟨rfl, rfl, fun cam => rfl, fun cam => ?_⟩
  simp only [products_photo_new_entry, strField, Option.getD_some]
  rw [if_neg he]

/-- C2 witness at a concrete EAN, empty table and both flag values. -/
theorem C2_camera_flag_guard_witness :
    products_scan_increment_entry false = CamOutcome.redirectList ∧
    products_scan_entry false = CamOutcome.redirectList ∧
    products_photo_edit_entry false [] 1
      = CamOutcome.attemptCapture (photoEditBase [] 1) ∧
    products_photo_new_entry false (some "5701234567890")
      = CamOutcome.attemptCapture ("product_" ++ strip "5701234567890") := by
  have h := C2_camera_flag_guard [] 1 "5701234567890" (by decide)
  exact ⟨h.1, h.2.1, h.2.2.1 false, h.2.2.2 false⟩

/-- C3: an edit request on an existing product whose tags field is entirely
absent leaves the stored tags unchanged, whereas a tags field that is present
but blank clears the stored tags to the empty list; the other edited fields
are written either way. -/
theorem C3_edit_tags_absent_vs_blank (db : List Row) (pid : Nat)
    (e n d : Option String) (r : Row)
    (hr : db.find? (fun r0 => r0.id == pid) = some r) :
    (products_edit_post db pid e n d none).find? (fun r0 => r0.id == pid)
      = some { r with ean := strField e, name := strField n, desc := strField d, tags := r.tags } ∧
    (products_edit_post db pid e n d (some "")).find? (fun r0 => r0.id == pid)
      = some { r with ean := strField e, name := strField n, desc := strField d, tags := [] } := by
  have hblank : parse_tags (some "") = some [] := by decide
  constructor
  · simp only [products_edit_post, hr, parse_tags]
    refine find?_map_update db _ (fun a => ?_) r hr
    rfl
  · simp only [products_edit_post, hr, hblank]
    refine find?_map_update db _ (fun a => ?_) r hr
    rfl

/-- C3 witness on the stored sample row. -/
theorem C3_edit_tags_absent_vs_blank_witness :
    (products_edit_post [row0] 1 (some "5701234567890") (some "Cola")
        (some "d2") none).find? (fun r0 => r0.id == 1)
      = some { row0 with ean := strField (some "5701234567890"), name := strField (some "Cola"), desc := strField (some "d2"), tags := row0.tags } ∧
    (products_edit_post [row0] 1 (some "5701234567890") (some "Cola")
        (some "d2") (some "")).find? (fun r0 => r0.id == 1)
      = some { row0 with ean := strField (some "5701234567890"), name := strField (some "Cola"), desc := strField (some "d2"), tags := [] } :=
  C3_edit_tags_absent_vs_blank [row0] 1 (some "5701234567890") (some "Cola")
    (some "d2") row0 (by decide)

/-- C9: a successful edit on an existing product writes only the EAN, name,
description and tags of the addressed row — its image and stock quantity are
unchanged — and every other row of the table is untouched. -/
theorem C9_edit_frame (db : List Row) (pid : Nat)
    (e n d t : Option String) (r : Row)
    (hr : db.find? (fun r0 => r0.id == pid) = some r) :
    (∃ r' : Row,
        (products_edit_post db pid e n d t).find? (fun r0 => r0.id == pid)
          = some r' ∧ r'.image = r.image ∧ r'.qty = r.qty ∧ r'.id = r.id ∧
          r'.ean = strField e ∧ r'.name = strField n ∧ r'.desc = strField d) ∧
    (∀ r0 ∈ db, r0.id ≠ pid → r0 ∈ products_edit_post db pid e n d t) := by
  constructor
  · have hfind : (products_edit_post db pid e n d t).find? (fun r0 => r0.id == pid)
        = some { r with ean := strField e, name := strField n, desc := strField d, tags := (match parse_tags t with | none => r.tags | some l => l) } := by
      simp only [products_edit_post, hr]
      refine find?_map_update db _ (fun a => ?_) r hr
      rfl
    exact ⟨_, hfind, rfl, rfl, rfl, rfl, rfl, rfl⟩
  · intro r0 h0 hne
    simp only [products_edit_post, hr]
    refine List.mem_map.mpr ⟨r0, h0, ?_⟩
    rw [if_neg (by simp [hne])]

/-- C9 witness on the stored sample row. -/
theorem C9_edit_frame_witness :
    (∃ r' : Row,
        (products_edit_post [row0] 1 (some "111") (some "N") (some "D")
            (some "a,b")).find? (fun r0 => r0.id == 1)
          = some r' ∧ r'.image = row0.image ∧ r'.qty = row0.qty ∧
          r'.id = row0.id ∧ r'.ean = strField (some "111") ∧
          r'.name = strField (some "N") ∧ r'.desc = strField (some "D")) ∧
    (∀ r0 ∈ [row0], r0.id ≠ 1 →
        r0 ∈ products_edit_post [row0] 1 (some "111") (some "N") (some "D")
          (some "a,b")) :=
  C9_edit_frame [row0] 1 (some "111") (some "N") (some "D") (some "a,b") row0
    (by decide)
